import Mathlib

/-!
Shallow embedding of the FolioMind document-classification core
(backend/app/core/detectors, backend/app/services/classification_service.py,
backend/app/services/extraction_service.py).

Text is modelled as `List Char` (ASCII reading of Python `str`); Python float
confidences are modelled as exact rationals; Python dicts of detector details
are modelled as structures whose default field values equal the `.get`
defaults used by the orchestrator.  Regex matching is modelled by explicit
backtracking matchers that follow the leftmost / greedy / word-boundary
semantics of the `re` module for the concrete patterns used by the code.
-/

namespace FolioMind

abbrev Text := List Char

/-- Convert a string literal into the `List Char` text model. -/
def str (s : String) : Text := s.data

/-- ASCII model of Python `str.lower`. -/
def lowerStr (s : Text) : Text := s.map Char.toLower

/-- Word character in the sense of the regex `\w` class (ASCII). -/
def isWordChar (c : Char) : Bool := c.isAlphanum || c == '_'

/-- Whitespace in the sense of the regex `\s` class (ASCII). -/
def isSpaceChar (c : Char) : Bool :=
  c == ' ' || c == '\t' || c == '\n' || c == '\r' || c == '\x0b' || c == '\x0c'

/-- Digit in the sense of the regex `\d` class (ASCII). -/
def isDigitChar (c : Char) : Bool := c.isDigit

/-- `startsWithStr n h`: `n` is an initial segment of `h`. -/
def startsWithStr : Text → Text → Bool
  | [], _ => true
  | _ :: _, [] => false
  | a :: as, b :: bs => a == b && startsWithStr as bs

/-- Python's substring test `needle in hay`. -/
def containsSub (needle : Text) : Text → Bool
  | [] => startsWithStr needle []
  | c :: cs => startsWithStr needle (c :: cs) || containsSub needle cs

/-- Python `sum` over a list of booleans. -/
def boolSum (l : List Bool) : Nat := (l.filter (fun b => b)).length

/-! ## Detector keyword lists (verbatim from the detector sources) -/

def incentive_verbs : List Text :=
  [str "get $", str "earn", str "save $", str "receive", str "win", str "claim",
   str "redeem"]

def conditionals : List Text :=
  [str "when you", str "if you", str "after you", str "you\x27ll", str "we\x27ll",
   str "you will", str "you can"]

def promo_terms : List Text :=
  [str "promo code", str "promotional code", str "offer code", str "offer",
   str "promotion", str "deal", str "bonus", str "reward", str "free", str "gift"]

def urgency : List Text :=
  [str "limited time", str "expires", str "ends", str "by ", str "hurry",
   str "act now", str "don\x27t miss", str "last chance"]

def ctas : List Text :=
  [str "sign up", str "enroll", str "apply now", str "join now", str "visit",
   str "call now", str "click here", str "register"]

/-! ## Promotional detector (detectors/promotional.py) -/

structure PromoDetails where
  signal_count : Nat
  has_incentive_verb : Bool
  has_conditional : Bool
  has_promo_term : Bool
  has_urgency : Bool
  has_cta : Bool
deriving Repr, DecidableEq

def is_promotional (text : Text) : Bool × PromoDetails :=
  let has_incentive_verb := incentive_verbs.any (fun v => containsSub v text)
  let has_conditional := conditionals.any (fun c => containsSub c text)
  let has_promo_term := promo_terms.any (fun t => containsSub t text)
  let has_urgency := urgency.any (fun u => containsSub u text)
  let has_cta := ctas.any (fun c => containsSub c text)
  let signal_count := boolSum
    [has_incentive_verb, has_conditional, has_promo_term, has_urgency, has_cta]
  let is_promo : Bool := signal_count ≥ 2
  (is_promo,
    { signal_count := signal_count
      has_incentive_verb := has_incentive_verb
      has_conditional := has_conditional
      has_promo_term := has_promo_term
      has_urgency := has_urgency
      has_cta := has_cta })

/-! ## Insurance card detector (detectors/insurance.py) -/

def anti_patterns : List Text :=
  [str "this is not an insurance card", str "summary of benefits",
   str "explanation of benefits", str "eob", str "claim statement",
   str "billing statement"]

def card_indicators : List Text :=
  [str "member id", str "subscriber id", str "policy number", str "certificate number"]

def insurance_terms : List Text :=
  [str "copay", str "rx bin", str "rx grp", str "deductible", str "payer id"]

def network_terms : List Text := [str "ppo", str "hmo", str "epo", str "pos"]

def known_insurers : List Text :=
  [str "blue cross", str "blue shield", str "premera", str "regence", str "aetna",
   str "cigna", str "kaiser", str "vsp", str "delta dental"]

structure InsuranceDetails where
  rejected_reason : Option Text := none
  signal_count : Nat := 0
  has_card_indicator : Bool := false
  has_insurance_term : Bool := false
  has_network_term : Bool := false
  has_known_insurer : Bool := false
  has_rx_bin : Bool := false
deriving Repr, DecidableEq

def is_insurance_card (text : Text) (field_keys : List Text) : Bool × InsuranceDetails :=
  if anti_patterns.any (fun p => containsSub p text) then
    (false, { rejected_reason := some (str "anti_pattern") })
  else
    let has_card_indicator := card_indicators.any (fun i => containsSub i text)
    let has_insurance_term := insurance_terms.any (fun t => containsSub t text)
    let has_network_term := network_terms.any (fun t => containsSub t text)
    let has_known_insurer := known_insurers.any (fun i => containsSub i text)
    let signal_count := boolSum
      [has_card_indicator, has_insurance_term, has_network_term, has_known_insurer]
    let has_rx_bin := containsSub (str "rx bin") text || containsSub (str "rxbin") text
    let is_insurance : Bool := signal_count ≥ 2 || has_rx_bin
    (is_insurance,
      { signal_count := signal_count
        has_card_indicator := has_card_indicator
        has_insurance_term := has_insurance_term
        has_network_term := has_network_term
        has_known_insurer := has_known_insurer
        has_rx_bin := has_rx_bin })

/-! ## Bill statement detector (detectors/bill.py) -/

def billing_terms : List Text :=
  [str "billing statement", str "statement of account", str "billing period",
   str "statement date"]

def payment_due : List Text :=
  [str "amount due", str "total due", str "balance due", str "minimum payment",
   str "please pay"]

def account_terms : List Text :=
  [str "account number", str "previous balance", str "current charges",
   str "new balance"]

def service_terms : List Text :=
  [str "utility bill", str "service period", str "usage", str "kwh", str "therms",
   str "medical bill"]

def invoice_terms : List Text := [str "invoice number", str "invoice date"]

structure BillDetails where
  has_billing_term : Bool
  has_payment_due : Bool
  has_account_term : Bool
  has_service_term : Bool
  has_invoice : Bool
  matched_rule : Option Text
deriving Repr, DecidableEq

def is_bill_statement (text : Text) : Bool × BillDetails :=
  let has_billing_term := billing_terms.any (fun t => containsSub t text)
  let has_payment_due := payment_due.any (fun t => containsSub t text)
  let has_account_term := account_terms.any (fun t => containsSub t text)
  let has_service_term := service_terms.any (fun t => containsSub t text)
  let has_invoice := invoice_terms.any (fun t => containsSub t text)
  let result :=
    if has_billing_term then (true, some (str "billing_term"))
    else if has_invoice && has_payment_due then (true, some (str "invoice_payment"))
    else if has_service_term && has_payment_due then (true, some (str "service_payment"))
    else if has_account_term && has_payment_due then (true, some (str "account_payment"))
    else (false, none)
  (result.1,
    { has_billing_term := has_billing_term
      has_payment_due := has_payment_due
      has_account_term := has_account_term
      has_service_term := has_service_term
      has_invoice := has_invoice
      matched_rule := result.2 })

/-! ## Letter detector (detectors/letter.py) -/

def salutations : List Text :=
  [str "dear ", str "to whom it may concern", str "hello ", str "hi ", str "greetings"]

def closings : List Text :=
  [str "sincerely", str "regards", str "best regards", str "best", str "yours truly",
   str "respectfully", str "cordially", str "warm regards"]

structure LetterDetails where
  rejected_reason : Option Text := none
  has_salutation : Bool := false
  has_closing : Bool := false
deriving Repr, DecidableEq

def is_letter (text : Text) (promotional_flag : Bool) : Bool × LetterDetails :=
  if promotional_flag then
    (false, { rejected_reason := some (str "promotional") })
  else
    let has_salutation := salutations.any (fun s => containsSub s text)
    let has_closing := closings.any (fun c => containsSub c text)
    (has_salutation && has_closing,
      { has_salutation := has_salutation, has_closing := has_closing })

/-! ## Regex machinery

Backtracking matchers for the concrete patterns used by the code.  A matcher
takes the previous character (for word boundaries) and the rest of the text
and returns the first successful parse in the order the `re` engine would try
alternatives: a greedy bounded repetition of a character class tries the
longest consumption first. -/

/-- Number of leading characters satisfying `p`. -/
def countLeading (p : Char → Bool) : Text → Nat
  | [] => 0
  | c :: cs => if p c then countLeading p cs + 1 else 0

/-- All ways to consume between `lo` and `hi` leading characters satisfying
`p`, longest first — the backtracking order of a greedy bounded repetition. -/
def repAlts (p : Char → Bool) (lo hi : Nat) (cs : Text) : List (Text × Text) :=
  let n := min (countLeading p cs) hi
  (List.range (n + 1)).reverse.filterMap (fun k =>
    if lo ≤ k then some (cs.take k, cs.drop k) else none)

/-- Backtracking order of an unbounded greedy repetition of a class. -/
def starAlts (p : Char → Bool) (lo : Nat) (cs : Text) : List (Text × Text) :=
  repAlts p lo (countLeading p cs) cs

/-- Consume exactly `k` characters satisfying `p`. -/
def takeExact (p : Char → Bool) (k : Nat) (cs : Text) : Option (Text × Text) :=
  if k ≤ countLeading p cs then some (cs.take k, cs.drop k) else none

/-- First alternative on which `f` succeeds. -/
def firstSome {α β : Type} (f : α → Option β) : List α → Option β
  | [] => none
  | a :: as =>
    match f a with
    | some b => some b
    | none => firstSome f as

def prevIsWord : Option Char → Bool
  | none => false
  | some c => isWordChar c

/-- Word boundary between the previous character and the current position. -/
def boundaryAt (prev : Option Char) (cs : Text) : Bool :=
  match cs with
  | [] => prevIsWord prev
  | c :: _ => prevIsWord prev != isWordChar c

/-- Word boundary immediately after a word character was consumed. -/
def boundaryAfterWord (cs : Text) : Bool :=
  match cs with
  | [] => true
  | c :: _ => !isWordChar c

/-- Word boundary after a consumed character `lastChar`. -/
def boundaryAfter (lastChar : Char) (cs : Text) : Bool :=
  match cs with
  | [] => isWordChar lastChar
  | c :: _ => isWordChar lastChar != isWordChar c

/-- `re.search`: try the matcher at every position, leftmost first.  (All
patterns in this development require at least one character, so the final
empty position never matches.) -/
def searchM {α : Type} (f : Option Char → Text → Option α) :
    Option Char → Text → Option α
  | _, [] => none
  | prev, c :: cs =>
    match f prev (c :: cs) with
    | some a => some a
    | none => searchM f (some c) cs

/-- One step list for `re.findall`: payload of each non-overlapping match,
scanning left to right and resuming after each match. `f` returns the whole
match, the payload, and the rest of the text. -/
def scanAll {α : Type} (f : Option Char → Text → Option (Text × α × Text)) :
    Nat → Option Char → Text → List α
  | 0, _, _ => []
  | _ + 1, _, [] => []
  | fuel + 1, prev, c :: cs =>
    match f prev (c :: cs) with
    | some (whole, a, rest) => a :: scanAll f fuel whole.getLast? rest
    | none => scanAll f fuel (some c) cs

def findallM {α : Type} (f : Option Char → Text → Option (Text × α × Text))
    (text : Text) : List α :=
  scanAll f (text.length + 1) none text

/-! ## Credit card detector (detectors/credit_card.py) -/

/-- Loop body of the Luhn total: enumerate the reversed digit string, double
every second digit (odd index), subtract 9 when the doubled value exceeds 9. -/
def luhnTotal (digits : Text) : Nat :=
  (digits.reverse.enum.map (fun p =>
    let n := p.2.toNat - '0'.toNat
    if p.1 % 2 == 1 then (if n * 2 > 9 then n * 2 - 9 else n * 2) else n)).sum

/-- `luhn_check`: strip non-digits, require 13–19 digits, Luhn total divisible
by 10. -/
def luhn_check (card_number : Text) : Bool :=
  let digits := card_number.filter isDigitChar
  if digits.isEmpty || digits.length < 13 || digits.length > 19 then false
  else luhnTotal digits % 10 == 0

/-- The optional separator `[\s\-]?` of the grouped card pattern. -/
def sepAlts (cs : Text) : List (Text × Text) :=
  repAlts (fun c => isSpaceChar c || c == '-') 0 1 cs

/-- Matcher for the grouped card pattern: word boundary,4 digits, optional
separator, 4 digits, optional separator, 4 digits, optional separator,
3 to 7 digits (greedy), word boundary. -/
def matchCardGrouped (prev : Option Char) (cs : Text) : Option (Text × Text) :=
  if !boundaryAt prev cs then none else
  match takeExact isDigitChar 4 cs with
  | none => none
  | some (g1, r1) =>
    firstSome (fun s1p =>
      match takeExact isDigitChar 4 s1p.2 with
      | none => none
      | some (g2, r2) =>
        firstSome (fun s2p =>
          match takeExact isDigitChar 4 s2p.2 with
          | none => none
          | some (g3, r3) =>
            firstSome (fun s3p =>
              firstSome (fun g4p =>
                if boundaryAfterWord g4p.2 then
                  some (g1 ++ s1p.1 ++ g2 ++ s2p.1 ++ g3 ++ s3p.1 ++ g4p.1, g4p.2)
                else none)
                (repAlts isDigitChar 3 7 s3p.2))
              (sepAlts r3))
          (sepAlts r2))
      (sepAlts r1)

/-- Matcher for the continuous card pattern: word boundary, 13 to 19 digits
(greedy), word boundary. -/
def matchCardPlain (prev : Option Char) (cs : Text) : Option (Text × Text) :=
  if !boundaryAt prev cs then none else
  firstSome (fun gp =>
    if boundaryAfterWord gp.2 then some (gp.1, gp.2) else none)
    (repAlts isDigitChar 13 19 cs)

/-- `extract_card_numbers`: findall of the grouped pattern, then findall of
the continuous pattern. -/
def extract_card_numbers (text : Text) : List Text :=
  findallM (fun prev cs => (matchCardGrouped prev cs).map (fun p => (p.1, p.1, p.2))) text
  ++ findallM (fun prev cs => (matchCardPlain prev cs).map (fun p => (p.1, p.1, p.2))) text

/-- Matcher for the expiry pattern: word boundary, month 01–09 or 10–12, a
slash, 2 digits (else 4 digits), word boundary. -/
def matchExpiry (prev : Option Char) (cs : Text) : Option Unit :=
  if !boundaryAt prev cs then none else
  match cs with
  | c1 :: c2 :: '/' :: rest =>
    if (c1 == '0' && ('1' ≤ c2 && c2 ≤ '9')) || (c1 == '1' && ('0' ≤ c2 && c2 ≤ '2')) then
      match takeExact isDigitChar 2 rest with
      | some (_, r2) =>
        if boundaryAfterWord r2 then some ()
        else
          match takeExact isDigitChar 4 rest with
          | some (_, r4) => if boundaryAfterWord r4 then some () else none
          | none => none
      | none =>
        match takeExact isDigitChar 4 rest with
        | some (_, r4) => if boundaryAfterWord r4 then some () else none
        | none => none
    else none
  | _ => none

def non_payment_card_terms : List Text :=
  [str "gift card", str "member card", str "membership card", str "loyalty card"]

def issuer_names : List Text :=
  [str "visa", str "mastercard", str "amex", str "american express", str "discover",
   str "maestro", str "jcb"]

def card_type_keywords : List Text :=
  [str "credit card", str "debit card", str "valid thru", str "expires"]

structure CreditDetails where
  rejected_reason : Option Text := none
  has_valid_pan : Bool := false
  has_issuer_name : Bool := false
  has_expiry : Bool := false
  has_card_field : Bool := false
  has_card_keyword : Bool := false
  is_non_payment_card : Bool := false
deriving Repr, DecidableEq

def is_credit_card (text : Text) (field_values : List Text) (field_keys : List Text) :
    Bool × CreditDetails :=
  let is_non_payment_card := non_payment_card_terms.any (fun t => containsSub t text)
  let has_issuer_name := issuer_names.any (fun i => containsSub i text)
  if is_non_payment_card && !has_issuer_name then
    (false, { rejected_reason := some (str "non_payment_card") })
  else
    let has_valid_pan := (extract_card_numbers text).any luhn_check
    let has_expiry := (searchM matchExpiry none text).isSome
    let has_card_field := field_keys.any (fun key =>
      (containsSub (str "card") key &&
        (containsSub (str "number") key || containsSub (str "pan") key))
      || containsSub (str "credit") key
      || containsSub (str "debit") key)
    let has_card_keyword := card_type_keywords.any (fun k => containsSub k text)
    let has_strong_context :=
      has_issuer_name || has_expiry || has_card_field || has_card_keyword
    let is_card := has_valid_pan && has_strong_context
    (is_card,
      { has_valid_pan := has_valid_pan
        has_issuer_name := has_issuer_name
        has_expiry := has_expiry
        has_card_field := has_card_field
        has_card_keyword := has_card_keyword
        is_non_payment_card := is_non_payment_card })

/-! ## Receipt detector (detectors/receipt.py) -/

/-- Matcher for a dollar amount: a dollar sign, any spaces (greedy), one or
more digits (greedy), optionally a dot and exactly two digits.  Returns
(whole match, digits of group 1, rest). -/
def matchAmount (_prev : Option Char) (cs : Text) : Option (Text × Text × Text) :=
  match cs with
  | '$' :: r1 =>
    firstSome (fun sp =>
      firstSome (fun dp =>
        match dp.2 with
        | '.' :: r4 =>
          (match takeExact isDigitChar 2 r4 with
           | some (dd, r5) =>
             some ('$' :: sp.1 ++ dp.1 ++ '.' :: dd, (dp.1 ++ '.' :: dd, r5))
           | none => some ('$' :: sp.1 ++ dp.1, (dp.1, dp.2)))
        | _ => some ('$' :: sp.1 ++ dp.1, (dp.1, dp.2)))
        (starAlts isDigitChar 1 sp.2))
      (starAlts isSpaceChar 0 r1)
  | _ => none

/-- `count_amounts`: number of dollar-amount matches in the text. -/
def count_amounts (text : Text) : Nat := (findallM matchAmount text).length

def transaction_patterns : List Text :=
  [str "receipt #", str "receipt number", str "transaction #", str "order #",
   str "order number", str "confirmation #"]

def card_types : List Text := [str "visa", str "mastercard", str "amex", str "discover"]

def payment_indicators : List Text := [str "auth code", str "approval", str "paid with"]

def cash_indicators : List Text := [str "cash", str "change:", str "tendered", str "amount paid"]

def merchant_indicators : List Text :=
  [str "store #", str "cashier", str "terminal", str "server:", str "table:"]

def receipt_keywords : List Text := [str "receipt", str "thank you for shopping"]

def payment_complete_words : List Text := [str "tendered", str "change:", str "change due"]

structure ReceiptDetails where
  rejected_reason : Option Text := none
  rule : Option Text := none
  has_transaction_id : Bool := false
  has_payment_method : Bool := false
  has_merchant_context : Bool := false
  has_receipt_word : Bool := false
  has_payment_complete : Bool := false
  amount_count : Nat := 0
deriving Repr, DecidableEq

def is_receipt (text : Text) (field_keys : List Text) (promotional_flag : Bool) :
    Bool × ReceiptDetails :=
  if promotional_flag then
    (false, { rejected_reason := some (str "promotional") })
  else
    let has_transaction_id := transaction_patterns.any (fun p => containsSub p text)
    let has_card_payment := card_types.any (fun c => containsSub c text)
      || payment_indicators.any (fun i => containsSub i text)
    let has_cash_payment := cash_indicators.any (fun i => containsSub i text)
    let has_payment_method := has_card_payment || has_cash_payment
    let has_merchant_context := merchant_indicators.any (fun i => containsSub i text)
    if has_transaction_id && has_payment_method then
      (true, { rule := some (str "strong_transaction"), has_transaction_id := true,
               has_payment_method := true })
    else if has_merchant_context && has_payment_method then
      (true, { rule := some (str "merchant_payment"), has_merchant_context := true,
               has_payment_method := true })
    else
      let has_receipt_word := receipt_keywords.any (fun k => containsSub k text)
      let has_payment_complete := payment_complete_words.any (fun w => containsSub w text)
      let has_multiple_amounts : Bool := count_amounts text ≥ 3
      if has_receipt_word && has_payment_complete && has_multiple_amounts then
        (true, { rule := some (str "weak_combined"), has_receipt_word := true,
                 has_payment_complete := true, amount_count := count_amounts text })
      else
        (false, { has_transaction_id := has_transaction_id,
                  has_payment_method := has_payment_method,
                  has_merchant_context := has_merchant_context })

/-! ## Classification orchestrator (services/classification_service.py) -/

inductive DocumentType where
  | receipt
  | promotional
  | billStatement
  | creditCard
  | insuranceCard
  | letter
  | generic
deriving Repr, DecidableEq

structure FieldModel where
  key : Text
  value : Text
  confidence : ℚ
  source : Text
deriving Repr, DecidableEq

structure SignalDetails where
  promotional : PromoDetails
  receipt : ReceiptDetails
  insurance_card : InsuranceDetails
  credit_card : CreditDetails
  bill : BillDetails
  letter : LetterDetails
deriving Repr, DecidableEq

structure ClassificationSignals where
  promotional : Bool
  receipt : Bool
  bill : Bool
  insurance_card : Bool
  credit_card : Bool
  letter : Bool
  details : SignalDetails
deriving Repr, DecidableEq

/-- The haystack: lower-cased OCR text, a space, and the space-joined
lower-cased field values, lower-cased once more. -/
def haystackOf (ocr_text : Text) (fields : List FieldModel) : Text :=
  lowerStr (lowerStr ocr_text ++ str " "
    ++ List.intercalate (str " ") (fields.map (fun f => lowerStr f.value)))

/-- Signal-count confidence banding. -/
def calculate_confidence (signal_count : Nat) (max_signals : Nat) : ℚ :=
  if signal_count ≥ max_signals then 0.95
  else if signal_count ≥ max_signals - 1 then 0.85
  else if signal_count ≥ 2 then 0.75
  else 0.60

/-- `ClassificationService.classify`.  The `hint` parameter is accepted but,
as in the source, not consulted by the decision logic. -/
def classify (ocr_text : Text) (fields : List FieldModel)
    (hint : Option DocumentType) (default_type : DocumentType) :
    DocumentType × ℚ × ClassificationSignals :=
  let field_keys := fields.map (fun f => lowerStr f.key)
  let field_values := fields.map (fun f => lowerStr f.value)
  let haystack := haystackOf ocr_text fields
  let pr := is_promotional haystack
  let ins := is_insurance_card haystack field_keys
  let cr := is_credit_card haystack field_values field_keys
  let rc := is_receipt haystack field_keys pr.1
  let bl := is_bill_statement haystack
  let lt := is_letter haystack pr.1
  let signals : ClassificationSignals :=
    { promotional := pr.1, receipt := rc.1, bill := bl.1, insurance_card := ins.1,
      credit_card := cr.1, letter := lt.1,
      details := { promotional := pr.2, receipt := rc.2, insurance_card := ins.2,
                   credit_card := cr.2, bill := bl.2, letter := lt.2 } }
  if pr.1 then
    (DocumentType.promotional, calculate_confidence pr.2.signal_count 5, signals)
  else if ins.1 then
    let conf := calculate_confidence ins.2.signal_count 4
    let conf := if ins.2.has_rx_bin then (0.95 : ℚ) else conf
    (DocumentType.insuranceCard, conf, signals)
  else if cr.1 then
    (DocumentType.creditCard, if cr.2.has_issuer_name then (0.9 : ℚ) else 0.75, signals)
  else if rc.1 then
    let rule := rc.2.rule.getD (str "")
    let conf : ℚ :=
      if rule == str "strong_transaction" then 0.95
      else if rule == str "merchant_payment" then 0.85
      else 0.70
    (DocumentType.receipt, conf, signals)
  else if bl.1 then
    (DocumentType.billStatement,
      if bl.2.has_billing_term then (0.9 : ℚ) else 0.75, signals)
  else if lt.1 then
    (DocumentType.letter, 0.80, signals)
  else
    (default_type, 0.3, signals)

/-! ## Field extraction (services/extraction_service.py)

Each matcher returns `(whole match, group capture, rest)`.  The extraction
regexes run with IGNORECASE on the raw (non-lowered) text, so literals are
compared case-insensitively and letter classes accept both cases. -/

/-- Case-insensitive literal: consume `lit` (given lower-case), returning the
text as it appeared. -/
def litCI : Text → Text → Option (Text × Text)
  | [], cs => some ([], cs)
  | _ :: _, [] => none
  | l :: ls, c :: cs =>
    if c.toLower == l.toLower then (litCI ls cs).map (fun p => (c :: p.1, p.2))
    else none

/-- Backtracking order of an optional single character (greedy). -/
def optChar (c : Char) (cs : Text) : List (Text × Text) :=
  repAlts (fun x => x == c) 0 1 cs

/-- Backtracking order of an optional case-insensitive literal (greedy). -/
def optLitCI (l : Text) (cs : Text) : List (Text × Text) :=
  match litCI l cs with
  | some p => [p, ([], cs)]
  | none => [([], cs)]

def isIdChar (c : Char) : Bool := c.isAlphanum || c == '-'

def isLocalChar (c : Char) : Bool :=
  c.isAlphanum || c == '.' || c == '_' || c == '%' || c == '+' || c == '-'

def isDomainChar (c : Char) : Bool := c.isAlphanum || c == '.' || c == '-'

def isTldChar (c : Char) : Bool := c.isAlpha || c == '|'

/-- Stage-1 date: word boundary, 1–2 digits, slash or dash, 1–2 digits, slash
or dash, 2–4 digits, word boundary; group 1 is the whole date. -/
def matchDate (prev : Option Char) (cs : Text) : Option (Text × Text × Text) :=
  if !boundaryAt prev cs then none else
  firstSome (fun ap =>
    match ap.2 with
    | c1 :: r2 =>
      if c1 == '/' || c1 == '-' then
        firstSome (fun bp =>
          match bp.2 with
          | c2 :: r4 =>
            if c2 == '/' || c2 == '-' then
              firstSome (fun cp =>
                if boundaryAfterWord cp.2 then
                  some (ap.1 ++ c1 :: bp.1 ++ c2 :: cp.1,
                        (ap.1 ++ c1 :: bp.1 ++ c2 :: cp.1, cp.2))
                else none)
                (repAlts isDigitChar 2 4 r4)
            else none
          | [] => none)
          (repAlts isDigitChar 1 2 r2)
      else none
    | [] => none)
    (repAlts isDigitChar 1 2 cs)

/-- Stage-1 email: word boundary, local part, at sign, domain part, a dot, a
final label of length at least 2, word boundary; the value is group 0. -/
def matchEmail (prev : Option Char) (cs : Text) : Option (Text × Text × Text) :=
  if !boundaryAt prev cs then none else
  firstSome (fun lp =>
    match lp.2 with
    | '@' :: r2 =>
      firstSome (fun dp =>
        match dp.2 with
        | '.' :: r4 =>
          firstSome (fun tp =>
            match tp.1.getLast? with
            | some lc =>
              if boundaryAfter lc tp.2 then
                some (lp.1 ++ '@' :: dp.1 ++ '.' :: tp.1,
                      (lp.1 ++ '@' :: dp.1 ++ '.' :: tp.1, tp.2))
              else none
            | none => none)
            (starAlts isTldChar 2 r4)
        | _ => none)
        (starAlts isDomainChar 1 r2)
    | _ => none)
    (starAlts isLocalChar 1 cs)

def phoneSepAlts (cs : Text) : List (Text × Text) :=
  repAlts (fun c => c == '-' || c == '.' || isSpaceChar c) 0 1 cs

/-- First phone alternative: 3 digits, optional separator, 3 digits, optional
separator, 4 digits, word boundary. -/
def matchPhoneAlt1 (cs : Text) : Option (Text × Text) :=
  match takeExact isDigitChar 3 cs with
  | none => none
  | some (a, r1) =>
    firstSome (fun s1 =>
      match takeExact isDigitChar 3 s1.2 with
      | none => none
      | some (b, r2) =>
        firstSome (fun s2 =>
          match takeExact isDigitChar 4 s2.2 with
          | none => none
          | some (c4, r3) =>
            if boundaryAfterWord r3 then some (a ++ s1.1 ++ b ++ s2.1 ++ c4, r3)
            else none)
          (phoneSepAlts r2))
      (phoneSepAlts r1)

/-- Second phone alternative: parenthesised 3 digits, any spaces, 3 digits,
optional separator, 4 digits, word boundary. -/
def matchPhoneAlt2 (cs : Text) : Option (Text × Text) :=
  match cs with
  | '(' :: r1 =>
    (match takeExact isDigitChar 3 r1 with
     | none => none
     | some (a, r2) =>
       match r2 with
       | ')' :: r3 =>
         firstSome (fun sp =>
           match takeExact isDigitChar 3 sp.2 with
           | none => none
           | some (b, r4) =>
             firstSome (fun s2 =>
               match takeExact isDigitChar 4 s2.2 with
               | none => none
               | some (c4, r5) =>
                 if boundaryAfterWord r5 then
                   some ('(' :: a ++ ')' :: sp.1 ++ b ++ s2.1 ++ c4, r5)
                 else none)
               (phoneSepAlts r4))
           (starAlts isSpaceChar 0 r3)
       | _ => none)
  | _ => none

/-- Stage-1 phone: word boundary, then the first of the two alternatives;
the value is group 0. -/
def matchPhone (prev : Option Char) (cs : Text) : Option (Text × Text × Text) :=
  if !boundaryAt prev cs then none else
  match matchPhoneAlt1 cs with
  | some p => some (p.1, p.1, p.2)
  | none =>
    match matchPhoneAlt2 cs with
    | some p => some (p.1, p.1, p.2)
    | none => none

/-- Stage-1 pattern extraction: amounts, dates, emails, phones, in that order,
one field per match. -/
def extract_pattern_fields (text : Text) : List FieldModel :=
  (findallM matchAmount text).map
    (fun v => { key := str "amount", value := '$' :: v, confidence := 0.85,
                source := str "pattern" })
  ++ (findallM matchDate text).map
    (fun v => { key := str "date", value := v, confidence := 0.90,
                source := str "pattern" })
  ++ (findallM matchEmail text).map
    (fun v => { key := str "email", value := v, confidence := 0.95,
                source := str "pattern" })
  ++ (findallM matchPhone text).map
    (fun v => { key := str "phone", value := v, confidence := 0.85,
                source := str "pattern" })

/-- Stage-2 refinement: rename generic amounts by document type, scaling
confidence by 0.9; all other fields pass through. -/
def refine_fields_by_type (fields : List FieldModel) (document_type : DocumentType)
    (_text : Text) : List FieldModel :=
  fields.map (fun field =>
    if document_type = DocumentType.promotional then
      if field.key == str "amount" then
        { key := str "offer_amount", value := field.value,
          confidence := field.confidence * 0.9, source := field.source }
      else field
    else if document_type = DocumentType.receipt then field
    else if document_type = DocumentType.billStatement then
      if field.key == str "amount" then
        { key := str "amount_due", value := field.value,
          confidence := field.confidence * 0.9, source := field.source }
      else field
    else field)

/-- First promo-code pattern: the word promo, any spaces, the word code,
optional colon, any spaces, then group 1 of letters and digits. -/
def matchPromo1 (_prev : Option Char) (cs : Text) : Option (Text × Text × Text) :=
  match litCI (str "promo") cs with
  | none => none
  | some (w1, r1) =>
    firstSome (fun sp =>
      match litCI (str "code") sp.2 with
      | none => none
      | some (w2, r2) =>
        firstSome (fun cp =>
          firstSome (fun sp2 =>
            firstSome (fun gp =>
              some (w1 ++ sp.1 ++ w2 ++ cp.1 ++ sp2.1 ++ gp.1, gp.1, gp.2))
              (starAlts Char.isAlphanum 1 sp2.2))
            (starAlts isSpaceChar 0 cp.2))
          (optChar ':' r2))
      (starAlts isSpaceChar 0 r1)

/-- Second promo-code pattern: the word use instead of promo. -/
def matchPromo2 (_prev : Option Char) (cs : Text) : Option (Text × Text × Text) :=
  match litCI (str "use") cs with
  | none => none
  | some (w1, r1) =>
    firstSome (fun sp =>
      match litCI (str "code") sp.2 with
      | none => none
      | some (w2, r2) =>
        firstSome (fun cp =>
          firstSome (fun sp2 =>
            firstSome (fun gp =>
              some (w1 ++ sp.1 ++ w2 ++ cp.1 ++ sp2.1 ++ gp.1, gp.1, gp.2))
              (starAlts Char.isAlphanum 1 sp2.2))
            (starAlts isSpaceChar 0 cp.2))
          (optChar ':' r2))
      (starAlts isSpaceChar 0 r1)

/-- Third promo-code pattern: the word code, optional colon, any spaces, then
group 1 of at least four letters and digits. -/
def matchPromo3 (_prev : Option Char) (cs : Text) : Option (Text × Text × Text) :=
  match litCI (str "code") cs with
  | none => none
  | some (w1, r1) =>
    firstSome (fun cp =>
      firstSome (fun sp =>
        firstSome (fun gp => some (w1 ++ cp.1 ++ sp.1 ++ gp.1, gp.1, gp.2))
          (starAlts Char.isAlphanum 4 sp.2))
        (starAlts isSpaceChar 0 cp.2))
      (optChar ':' r1)

/-- The long-form expiry date group: letters, spaces, 1–2 digits, optional
comma, spaces, exactly four digits. -/
def matchLongDate (cs : Text) : Option (Text × Text) :=
  firstSome (fun mp =>
    firstSome (fun s1 =>
      firstSome (fun dp =>
        firstSome (fun cp =>
          firstSome (fun s2 =>
            (takeExact isDigitChar 4 s2.2).map (fun yp =>
              (mp.1 ++ s1.1 ++ dp.1 ++ cp.1 ++ s2.1 ++ yp.1, yp.2)))
            (starAlts isSpaceChar 1 cp.2))
          (optChar ',' dp.2))
        (repAlts isDigitChar 1 2 s1.2))
      (starAlts isSpaceChar 1 mp.2))
    (starAlts Char.isAlpha 1 cs)

/-- The slash-date group: 1–2 digits, slash, 1–2 digits, slash, four digits. -/
def matchSlashDate (cs : Text) : Option (Text × Text) :=
  firstSome (fun ap =>
    match ap.2 with
    | '/' :: r2 =>
      firstSome (fun bp =>
        match bp.2 with
        | '/' :: r4 =>
          (takeExact isDigitChar 4 r4).map (fun q =>
            (ap.1 ++ '/' :: bp.1 ++ '/' :: q.1, q.2))
        | _ => none)
        (repAlts isDigitChar 1 2 r2)
    | _ => none)
    (repAlts isDigitChar 1 2 cs)

/-- First offer-expiry pattern: the word expire, optional s, optional colon,
any spaces, then the long-form date as group 1. -/
def matchExpiry1 (_prev : Option Char) (cs : Text) : Option (Text × Text × Text) :=
  match litCI (str "expire") cs with
  | none => none
  | some (w1, r1) =>
    firstSome (fun es =>
      firstSome (fun cp =>
        firstSome (fun sp =>
          (matchLongDate sp.2).map (fun dp =>
            (w1 ++ es.1 ++ cp.1 ++ sp.1 ++ dp.1, dp.1, dp.2)))
          (starAlts isSpaceChar 0 cp.2))
        (optChar ':' es.2))
      (optLitCI (str "s") r1)

/-- Second offer-expiry pattern: the word end instead of expire. -/
def matchExpiry2 (_prev : Option Char) (cs : Text) : Option (Text × Text × Text) :=
  match litCI (str "end") cs with
  | none => none
  | some (w1, r1) =>
    firstSome (fun es =>
      firstSome (fun cp =>
        firstSome (fun sp =>
          (matchLongDate sp.2).map (fun dp =>
            (w1 ++ es.1 ++ cp.1 ++ sp.1 ++ dp.1, dp.1, dp.2)))
          (starAlts isSpaceChar 0 cp.2))
        (optChar ':' es.2))
      (optLitCI (str "s") r1)

/-- Third offer-expiry pattern: the word by, at least one space, then the
slash date as group 1. -/
def matchExpiry3 (_prev : Option Char) (cs : Text) : Option (Text × Text × Text) :=
  match litCI (str "by") cs with
  | none => none
  | some (w1, r1) =>
    firstSome (fun sp =>
      (matchSlashDate sp.2).map (fun dp => (w1 ++ sp.1 ++ dp.1, dp.1, dp.2)))
      (starAlts isSpaceChar 1 r1)

/-- Receipt id pattern shape: a keyword, any spaces, a hash sign, optional
colon, any spaces, then group 1 of letters, digits and dashes. -/
def matchIdAfter (lit : Text) (cs : Text) : Option (Text × Text × Text) :=
  match litCI lit cs with
  | none => none
  | some (w1, r1) =>
    firstSome (fun sp =>
      match sp.2 with
      | '#' :: r2 =>
        firstSome (fun cp =>
          firstSome (fun sp2 =>
            firstSome (fun gp =>
              some (w1 ++ sp.1 ++ '#' :: cp.1 ++ sp2.1 ++ gp.1, gp.1, gp.2))
              (starAlts isIdChar 1 sp2.2))
            (starAlts isSpaceChar 0 cp.2))
          (optChar ':' r2)
      | _ => none)
      (starAlts isSpaceChar 0 r1)

def matchReceiptId (_prev : Option Char) (cs : Text) : Option (Text × Text × Text) :=
  matchIdAfter (str "receipt") cs

def matchTransactionId (_prev : Option Char) (cs : Text) : Option (Text × Text × Text) :=
  matchIdAfter (str "transaction") cs

def matchOrderId (_prev : Option Char) (cs : Text) : Option (Text × Text × Text) :=
  matchIdAfter (str "order") cs

/-- Receipt total pattern: the word total, optional colon, any spaces, a
dollar sign, any spaces, then group 1 of digits, a dot and two digits. -/
def matchTotal (_prev : Option Char) (cs : Text) : Option (Text × Text × Text) :=
  match litCI (str "total") cs with
  | none => none
  | some (w1, r1) =>
    firstSome (fun cp =>
      firstSome (fun sp =>
        match sp.2 with
        | '$' :: r2 =>
          firstSome (fun sp2 =>
            firstSome (fun dp =>
              match dp.2 with
              | '.' :: r4 =>
                (takeExact isDigitChar 2 r4).map (fun q =>
                  (w1 ++ cp.1 ++ sp.1 ++ '$' :: sp2.1 ++ dp.1 ++ '.' :: q.1,
                   dp.1 ++ '.' :: q.1, q.2))
              | _ => none)
              (starAlts isDigitChar 1 sp2.2))
            (starAlts isSpaceChar 0 r2)
        | _ => none)
        (starAlts isSpaceChar 0 cp.2))
      (optChar ':' r1)

/-- First due-date pattern: the words due date, optional colon, any spaces,
then the slash date as group 1. -/
def matchDueDate1 (_prev : Option Char) (cs : Text) : Option (Text × Text × Text) :=
  match litCI (str "due") cs with
  | none => none
  | some (w1, r1) =>
    firstSome (fun sp =>
      match litCI (str "date") sp.2 with
      | none => none
      | some (w2, r2) =>
        firstSome (fun cp =>
          firstSome (fun sp2 =>
            (matchSlashDate sp2.2).map (fun dp =>
              (w1 ++ sp.1 ++ w2 ++ cp.1 ++ sp2.1 ++ dp.1, dp.1, dp.2)))
            (starAlts isSpaceChar 0 cp.2))
          (optChar ':' r2))
      (starAlts isSpaceChar 0 r1)

/-- Second due-date pattern: the words payment due. -/
def matchDueDate2 (_prev : Option Char) (cs : Text) : Option (Text × Text × Text) :=
  match litCI (str "payment") cs with
  | none => none
  | some (w1, r1) =>
    firstSome (fun sp =>
      match litCI (str "due") sp.2 with
      | none => none
      | some (w2, r2) =>
        firstSome (fun cp =>
          firstSome (fun sp2 =>
            (matchSlashDate sp2.2).map (fun dp =>
              (w1 ++ sp.1 ++ w2 ++ cp.1 ++ sp2.1 ++ dp.1, dp.1, dp.2)))
            (starAlts isSpaceChar 0 cp.2))
          (optChar ':' r2))
      (starAlts isSpaceChar 0 r1)

/-- Account-number pattern: the word account, any spaces, optional hash,
optional colon, any spaces, then group 1 of letters, digits and dashes. -/
def matchAccount (_prev : Option Char) (cs : Text) : Option (Text × Text × Text) :=
  match litCI (str "account") cs with
  | none => none
  | some (w1, r1) =>
    firstSome (fun sp =>
      firstSome (fun hp =>
        firstSome (fun cp =>
          firstSome (fun sp2 =>
            firstSome (fun gp =>
              some (w1 ++ sp.1 ++ hp.1 ++ cp.1 ++ sp2.1 ++ gp.1, gp.1, gp.2))
              (starAlts isIdChar 1 sp2.2))
            (starAlts isSpaceChar 0 cp.2))
          (optChar ':' hp.2))
        (optChar '#' sp.2))
      (starAlts isSpaceChar 0 r1)

/-- Group 1 of the leftmost match, or none. -/
def searchCap (m : Option Char → Text → Option (Text × Text × Text)) (text : Text) :
    Option Text :=
  searchM (fun prev cs => (m prev cs).map (fun p => p.2.1)) none text

/-- Promotional-specific extraction: first matching promo-code pattern, then
first matching offer-expiry pattern. -/
def extract_promotional_fields (text : Text) : List FieldModel :=
  (match firstSome (fun m => searchCap m text)
      [matchPromo1, matchPromo2, matchPromo3] with
   | some v => [{ key := str "promo_code", value := v, confidence := 0.95,
                  source := str "pattern" }]
   | none => [])
  ++ (match firstSome (fun m => searchCap m text)
      [matchExpiry1, matchExpiry2, matchExpiry3] with
   | some v => [{ key := str "offer_expiry", value := v, confidence := 0.90,
                  source := str "pattern" }]
   | none => [])

/-- Receipt-specific extraction: first matching transaction-id pattern, then
the receipt total. -/
def extract_receipt_fields (text : Text) : List FieldModel :=
  (match firstSome (fun m => searchCap m text)
      [matchReceiptId, matchTransactionId, matchOrderId] with
   | some v => [{ key := str "transaction_id", value := v, confidence := 0.95,
                  source := str "pattern" }]
   | none => [])
  ++ (match searchCap matchTotal text with
   | some v => [{ key := str "total_amount", value := '$' :: v, confidence := 0.95,
                  source := str "pattern" }]
   | none => [])

/-- Bill-specific extraction: first matching due-date pattern, then the
account number. -/
def extract_bill_fields (text : Text) : List FieldModel :=
  (match firstSome (fun m => searchCap m text) [matchDueDate1, matchDueDate2] with
   | some v => [{ key := str "due_date", value := v, confidence := 0.95,
                  source := str "pattern" }]
   | none => [])
  ++ (match searchCap matchAccount text with
   | some v => [{ key := str "account_number", value := v, confidence := 0.90,
                  source := str "pattern" }]
   | none => [])

/-- `ExtractionService.extract_fields`: stage 1 pattern extraction, stage 2
type-aware refinement, stage 3 type-specific additions.  (The LLM enrichment
call is commented out in the source.) -/
def extract_fields (ocr_text : Text) (document_type : DocumentType) : List FieldModel :=
  let fields := extract_pattern_fields ocr_text
  let fields := refine_fields_by_type fields document_type ocr_text
  let extra :=
    if document_type = DocumentType.promotional then extract_promotional_fields ocr_text
    else if document_type = DocumentType.receipt then extract_receipt_fields ocr_text
    else if document_type = DocumentType.billStatement then extract_bill_fields ocr_text
    else []
  fields ++ extra

/-! ## Helper lemmas -/

theorem startsWithStr_append_left (a b : Text) :
    ∀ t : Text, startsWithStr (a ++ b) t = true → startsWithStr a t = true := by
  induction a with
  | nil => intro t _; rfl
  | cons c cs ih =>
    intro t h
    cases t with
    | nil => simp [startsWithStr] at h
    | cons d ds =>
      simp only [List.cons_append, startsWithStr, Bool.and_eq_true] at h ⊢
      exact ⟨h.1, ih ds h.2⟩

theorem containsSub_append_left (a b : Text) :
    ∀ t : Text, containsSub (a ++ b) t = true → containsSub a t = true := by
  intro t
  induction t with
  | nil =>
    cases a with
    | nil => intro _; rfl
    | cons c cs => intro h; simp [containsSub, startsWithStr] at h
  | cons c cs ih =>
    intro h
    simp only [containsSub, Bool.or_eq_true] at h ⊢
    rcases h with h1 | h2
    · exact Or.inl (startsWithStr_append_left a b _ h1)
    · exact Or.inr (ih h2)

theorem is_promotional_fst (t : Text) :
    (is_promotional t).1 = decide (2 ≤ (is_promotional t).2.signal_count) := rfl

/-! ## Claim theorems -/

/-- C1: any text whose lower-cased haystack matches at least 2 of the 5
promotional signal categories is classified Promotional, whatever the other
detectors would report, because the promotional branch is first in the
priority chain. -/
theorem promo_two_categories_classifies_promotional
    (ocr_text : Text) (fields : List FieldModel) (hint : Option DocumentType)
    (default_type : DocumentType)
    (h : 2 ≤ (is_promotional (haystackOf ocr_text fields)).2.signal_count) :
    (classify ocr_text fields hint default_type).1 = DocumentType.promotional := by
  have hp : (is_promotional (haystackOf ocr_text fields)).1 = true := by
    rw [is_promotional_fst]
    exact decide_eq_true h
  simp [classify, hp]

/-- Witness for C1: a text with incentive, conditional and call-to-action
signals (and receipt/bill vocabulary as well) classifies Promotional. -/
theorem promo_two_categories_classifies_promotional_witness :
    2 ≤ (is_promotional (haystackOf
        (str "Get $50 when you sign up. amount due. receipt # 99 paid with visa") [])).2.signal_count
    ∧ (classify (str "Get $50 when you sign up. amount due. receipt # 99 paid with visa")
        [] none DocumentType.generic).1 = DocumentType.promotional :=
  ⟨by decide,
   promo_two_categories_classifies_promotional _ _ none DocumentType.generic (by decide)⟩

/-- C6: a payment-due term alone never qualifies a text as a bill statement:
with no billing, invoice, service or account-management term the detector
returns false. -/
theorem payment_due_alone_not_bill (text : Text)
    (hdue : payment_due.any (fun t => containsSub t text) = true)
    (hbill : billing_terms.any (fun t => containsSub t text) = false)
    (hinv : invoice_terms.any (fun t => containsSub t text) = false)
    (hserv : service_terms.any (fun t => containsSub t text) = false)
    (hacct : account_terms.any (fun t => containsSub t text) = false) :
    (is_bill_statement text).1 = false := by
  simp [is_bill_statement, hbill, hinv, hserv, hacct]

/-- Witness for C6: a bare please-pay text is not a bill statement. -/
theorem payment_due_alone_not_bill_witness :
    (is_bill_statement (str "please pay $20")).1 = false :=
  payment_due_alone_not_bill _ (by decide) (by decide) (by decide) (by decide) (by decide)

/-- What `luhn_check` accepting a candidate says about it. -/
theorem luhn_check_spec (n : Text) (h : luhn_check n = true) :
    13 ≤ (n.filter isDigitChar).length
    ∧ (n.filter isDigitChar).length ≤ 19
    ∧ luhnTotal (n.filter isDigitChar) % 10 = 0 := by
  simp only [luhn_check] at h
  split at h
  · exact absurd h (by simp)
  · next hcond =>
    simp only [Bool.or_eq_true, decide_eq_true_eq, not_or, not_lt] at hcond
    exact ⟨hcond.1.2, hcond.2, by simpa using h⟩

/-- If the credit-card detector rejects, the classifier cannot land in the
credit-card branch. -/
theorem classify_fst_ne_creditCard (ocr_text : Text) (fields : List FieldModel)
    (hint : Option DocumentType)
    (hcr : (is_credit_card (haystackOf ocr_text fields)
        (fields.map fun f => lowerStr f.value)
        (fields.map fun f => lowerStr f.key)).1 = false) :
    (classify ocr_text fields hint DocumentType.generic).1 ≠ DocumentType.creditCard := by
  simp only [classify]
  split_ifs <;> simp_all

/-- C2: the credit-card detector fires only when some extracted candidate
number has 13 to 19 digits whose Luhn total (double every second digit from
the reversed end, subtracting 9 above 9) is divisible by 10; consequently a
text all of whose candidates fail the Luhn check is never classified
CreditCard, even when an issuer name and an expiry pattern are present. -/
theorem credit_card_requires_luhn_valid_candidate :
    (∀ (text : Text) (field_values field_keys : List Text) (d : CreditDetails),
      is_credit_card text field_values field_keys = (true, d) →
      ∃ n, n ∈ extract_card_numbers text
        ∧ 13 ≤ (n.filter isDigitChar).length
        ∧ (n.filter isDigitChar).length ≤ 19
        ∧ luhnTotal (n.filter isDigitChar) % 10 = 0
        ∧ luhn_check n = true)
    ∧ (∀ (ocr_text : Text) (fields : List FieldModel) (hint : Option DocumentType),
      (∀ n ∈ extract_card_numbers (haystackOf ocr_text fields), luhn_check n = false) →
      containsSub (str "visa") (haystackOf ocr_text fields) = true →
      (searchM matchExpiry none (haystackOf ocr_text fields)).isSome = true →
      (classify ocr_text fields hint DocumentType.generic).1 ≠ DocumentType.creditCard) := by
  constructor
  · intro text fv fk d h
    simp only [is_credit_card] at h
    split at h
    · simp at h
    · rw [Prod.mk.injEq] at h
      have hpan : (extract_card_numbers text).any luhn_check = true := by
        have := h.1
        exact (Bool.and_eq_true _ _).mp this |>.1
      obtain ⟨n, hmem, hl⟩ := List.any_eq_true.mp hpan
      obtain ⟨hlo, hhi, hmod⟩ := luhn_check_spec n hl
      exact ⟨n, hmem, hlo, hhi, hmod, hl⟩
  · intro ocr_text fields hint hall hvisa hexp
    have hpan : (extract_card_numbers (haystackOf ocr_text fields)).any luhn_check = false := by
      rw [List.any_eq_false]
      intro n hn
      simp [hall n hn]
    have hcr : (is_credit_card (haystackOf ocr_text fields)
        (fields.map fun f => lowerStr f.value)
        (fields.map fun f => lowerStr f.key)).1 = false := by
      simp only [is_credit_card]
      split
      · rfl
      · simp [hpan]
    exact classify_fst_ne_creditCard ocr_text fields hint hcr

/-- Witness for C2: a Luhn-valid candidate with the visa context makes the
detector fire, and a text whose only candidate is 16 digits failing Luhn is
not classified CreditCard despite visa and an expiry. -/
theorem credit_card_requires_luhn_valid_candidate_witness :
    (∃ n, n ∈ extract_card_numbers (str "visa 4111111111111111")
      ∧ 13 ≤ (n.filter isDigitChar).length
      ∧ (n.filter isDigitChar).length ≤ 19
      ∧ luhnTotal (n.filter isDigitChar) % 10 = 0
      ∧ luhn_check n = true)
    ∧ (classify (str "visa 1234567890123456 01/25") [] none DocumentType.generic).1
        ≠ DocumentType.creditCard :=
  ⟨credit_card_requires_luhn_valid_candidate.1 (str "visa 4111111111111111") [] []
      { has_valid_pan := true, has_issuer_name := true } (by decide),
   credit_card_requires_luhn_valid_candidate.2 (str "visa 1234567890123456 01/25") [] none
      (by decide) (by decide) (by decide)⟩

/-- C5: a non-payment-card term with no issuer brand makes the credit-card
detector reject for any field context, so such a text is never classified
CreditCard. -/
theorem non_payment_card_blocks_credit_card
    (ocr_text : Text) (fields : List FieldModel) (hint : Option DocumentType)
    (hnp : non_payment_card_terms.any
        (fun t => containsSub t (haystackOf ocr_text fields)) = true)
    (hiss : issuer_names.any
        (fun i => containsSub i (haystackOf ocr_text fields)) = false) :
    (∀ field_values field_keys : List Text,
      (is_credit_card (haystackOf ocr_text fields) field_values field_keys).1 = false)
    ∧ (classify ocr_text fields hint DocumentType.generic).1 ≠ DocumentType.creditCard := by
  have hdet : ∀ fv fk : List Text,
      (is_credit_card (haystackOf ocr_text fields) fv fk).1 = false := by
    intro fv fk
    simp only [is_credit_card]
    simp [hnp, hiss]
  exact ⟨hdet, classify_fst_ne_creditCard ocr_text fields hint (hdet _ _)⟩

/-- Witness for C5: a gift-card text with a 16-digit number is rejected by
the credit-card detector and not classified CreditCard. -/
theorem non_payment_card_blocks_credit_card_witness :
    (∀ field_values field_keys : List Text,
      (is_credit_card (haystackOf (str "STARBUCKS GIFT CARD 6011000990139424") [])
        field_values field_keys).1 = false)
    ∧ (classify (str "STARBUCKS GIFT CARD 6011000990139424") [] none
        DocumentType.generic).1 ≠ DocumentType.creditCard :=
  non_payment_card_blocks_credit_card (str "STARBUCKS GIFT CARD 6011000990139424") [] none
    (by decide) (by decide)

/-- C3 counterexample: a text containing rx bin with no anti-pattern is NOT
classified InsuranceCard when two promotional signal categories are also
present — promotional precedence wins. -/
theorem rx_bin_not_insurance_card_cex :
    containsSub (str "rx bin")
      (haystackOf (str "rx bin 004336 get $50 when you sign up") []) = true
    ∧ anti_patterns.any (fun p => containsSub p
        (haystackOf (str "rx bin 004336 get $50 when you sign up") [])) = false
    ∧ (classify (str "rx bin 004336 get $50 when you sign up") [] none
        DocumentType.generic).1 = DocumentType.promotional
    ∧ (classify (str "rx bin 004336 get $50 when you sign up") [] none
        DocumentType.generic).1 ≠ DocumentType.insuranceCard := by
  refine ⟨by decide, by decide, by decide, by decide⟩

/-- C3 amended: a text containing rx bin with no anti-pattern, *provided the
promotional detector does not fire*, classifies InsuranceCard with confidence
exactly 0.95, regardless of the insurance signal-category count. -/
theorem rx_bin_insurance_card_when_not_promotional
    (ocr_text : Text) (fields : List FieldModel) (hint : Option DocumentType)
    (default_type : DocumentType)
    (hrx : containsSub (str "rx bin") (haystackOf ocr_text fields) = true)
    (hanti : anti_patterns.any
        (fun p => containsSub p (haystackOf ocr_text fields)) = false)
    (hpromo : (is_promotional (haystackOf ocr_text fields)).1 = false) :
    (classify ocr_text fields hint default_type).1 = DocumentType.insuranceCard
    ∧ (classify ocr_text fields hint default_type).2.1 = 0.95 := by
  have hins : (is_insurance_card (haystackOf ocr_text fields)
      (fields.map fun f => lowerStr f.key)).1 = true := by
    simp [is_insurance_card, hanti, hrx]
  have hrxd : (is_insurance_card (haystackOf ocr_text fields)
      (fields.map fun f => lowerStr f.key)).2.has_rx_bin = true := by
    simp [is_insurance_card, hanti, hrx]
  constructor <;> simp [classify, hpromo, hins, hrxd]

/-- Witness for C3 amended: a bare rx-bin text classifies InsuranceCard at
confidence 0.95. -/
theorem rx_bin_insurance_card_when_not_promotional_witness :
    (classify (str "rx bin 004336") [] none DocumentType.generic).1
      = DocumentType.insuranceCard
    ∧ (classify (str "rx bin 004336") [] none DocumentType.generic).2.1 = 0.95 :=
  rx_bin_insurance_card_when_not_promotional (str "rx bin 004336") [] none
    DocumentType.generic (by decide) (by decide) (by decide)

/-- C4 counterexample: a text with a transaction-id pattern and a payment
signal and zero promotional signals is NOT classified Receipt when the
insurance-card detector (higher priority) also fires. -/
theorem transaction_payment_not_receipt_cex :
    transaction_patterns.any (fun p => containsSub p
      (haystackOf (str "Order # 5 paid with cash member id policy number ppo") [])) = true
    ∧ payment_indicators.any (fun i => containsSub i
      (haystackOf (str "Order # 5 paid with cash member id policy number ppo") [])) = true
    ∧ (is_promotional
      (haystackOf (str "Order # 5 paid with cash member id policy number ppo") [])).2.signal_count = 0
    ∧ (classify (str "Order # 5 paid with cash member id policy number ppo") [] none
        DocumentType.generic).1 = DocumentType.insuranceCard
    ∧ (classify (str "Order # 5 paid with cash member id policy number ppo") [] none
        DocumentType.generic).1 ≠ DocumentType.receipt := by
  refine ⟨by decide, by decide, by decide, by decide, by decide⟩

/-- C4 amended: a text with a transaction-id pattern and a payment-method
signal, no promotional hit, *and no insurance-card or credit-card hit*,
classifies Receipt with confidence at least 0.95 (the strong tier). -/
theorem strong_receipt_when_no_higher_detector
    (ocr_text : Text) (fields : List FieldModel) (hint : Option DocumentType)
    (default_type : DocumentType)
    (htid : transaction_patterns.any
        (fun p => containsSub p (haystackOf ocr_text fields)) = true)
    (hpay : ((card_types.any (fun c => containsSub c (haystackOf ocr_text fields))
        || payment_indicators.any (fun i => containsSub i (haystackOf ocr_text fields)))
        || cash_indicators.any (fun i => containsSub i (haystackOf ocr_text fields))) = true)
    (hpromo : (is_promotional (haystackOf ocr_text fields)).1 = false)
    (hins : (is_insurance_card (haystackOf ocr_text fields)
        (fields.map fun f => lowerStr f.key)).1 = false)
    (hcr : (is_credit_card (haystackOf ocr_text fields)
        (fields.map fun f => lowerStr f.value)
        (fields.map fun f => lowerStr f.key)).1 = false) :
    (classify ocr_text fields hint default_type).1 = DocumentType.receipt
    ∧ (0.95 : ℚ) ≤ (classify ocr_text fields hint default_type).2.1 := by
  have hrc : is_receipt (haystackOf ocr_text fields)
      (fields.map fun f => lowerStr f.key) false
      = (true, { rule := some (str "strong_transaction"), has_transaction_id := true,
                 has_payment_method := true }) := by
    simp [is_receipt, htid, hpay]
  constructor <;> simp [classify, hpromo, hins, hcr, hrc]

/-- Witness for C4 amended: a plain strong-tier receipt text classifies
Receipt at confidence 0.95. -/
theorem strong_receipt_when_no_higher_detector_witness :
    (classify (str "Receipt # 12 paid with cash") [] none DocumentType.generic).1
      = DocumentType.receipt
    ∧ (0.95 : ℚ) ≤ (classify (str "Receipt # 12 paid with cash") [] none
        DocumentType.generic).2.1 :=
  strong_receipt_when_no_higher_detector (str "Receipt # 12 paid with cash") [] none
    DocumentType.generic (by decide) (by decide) (by decide) (by decide) (by decide)

/-- C9: the CVS pharmacy example end to end: strong-tier Receipt with
confidence at least 0.85, receipt signal true, promotional false, and
extraction yields the transaction id 456 and the total amount $12.99. -/
theorem cvs_receipt_end_to_end :
    (classify (str "CVS Pharmacy\nReceipt #456\nADVIL $12.99\nTotal: $12.99\nVISA ****1234")
        [] none DocumentType.generic).1 = DocumentType.receipt
    ∧ (0.85 : ℚ) ≤ (classify (str "CVS Pharmacy\nReceipt #456\nADVIL $12.99\nTotal: $12.99\nVISA ****1234")
        [] none DocumentType.generic).2.1
    ∧ (classify (str "CVS Pharmacy\nReceipt #456\nADVIL $12.99\nTotal: $12.99\nVISA ****1234")
        [] none DocumentType.generic).2.2.receipt = true
    ∧ (classify (str "CVS Pharmacy\nReceipt #456\nADVIL $12.99\nTotal: $12.99\nVISA ****1234")
        [] none DocumentType.generic).2.2.promotional = false
    ∧ ({ key := str "transaction_id", value := str "456", confidence := 0.95,
         source := str "pattern" } : FieldModel)
      ∈ extract_fields (str "CVS Pharmacy\nReceipt #456\nADVIL $12.99\nTotal: $12.99\nVISA ****1234")
          DocumentType.receipt
    ∧ ({ key := str "total_amount", value := str "$12.99", confidence := 0.95,
         source := str "pattern" } : FieldModel)
      ∈ extract_fields (str "CVS Pharmacy\nReceipt #456\nADVIL $12.99\nTotal: $12.99\nVISA ****1234")
          DocumentType.receipt := by
  have hconf : (classify (str "CVS Pharmacy\nReceipt #456\nADVIL $12.99\nTotal: $12.99\nVISA ****1234")
      [] none DocumentType.generic).2.1 = (0.95 : ℚ) := by rfl
  have hfields : extract_fields
      (str "CVS Pharmacy\nReceipt #456\nADVIL $12.99\nTotal: $12.99\nVISA ****1234")
      DocumentType.receipt
      = [{ key := str "amount", value := str "$12.99", confidence := 0.85,
           source := str "pattern" },
         { key := str "amount", value := str "$12.99", confidence := 0.85,
           source := str "pattern" },
         { key := str "transaction_id", value := str "456", confidence := 0.95,
           source := str "pattern" },
         { key := str "total_amount", value := str "$12.99", confidence := 0.95,
           source := str "pattern" }] := by rfl
  refine ⟨by decide, ?_, by decide, by decide, ?_, ?_⟩
  · rw [hconf]; norm_num
  · rw [hfields]
    exact List.Mem.tail _ (List.Mem.tail _ (List.Mem.head _))
  · rw [hfields]
    exact List.Mem.tail _ (List.Mem.tail _ (List.Mem.tail _ (List.Mem.head _)))

/-- C10 counterexample: a non-promotional text containing cashier does make
the receipt detector fire, but when a transaction-id pattern is also present
the rule is the strong tier, not merchant_payment, and the classifier
confidence is 0.95, not 0.85. -/
theorem cashier_medium_tier_cex :
    containsSub (str "cashier") (haystackOf (str "Receipt # 7 cashier") []) = true
    ∧ (is_promotional (haystackOf (str "Receipt # 7 cashier") [])).1 = false
    ∧ (is_receipt (haystackOf (str "Receipt # 7 cashier") []) [] false).1 = true
    ∧ (is_receipt (haystackOf (str "Receipt # 7 cashier") []) [] false).2.rule
        ≠ some (str "merchant_payment")
    ∧ (classify (str "Receipt # 7 cashier") [] none DocumentType.generic).2.1
        ≠ (0.85 : ℚ) := by
  have hconf : (classify (str "Receipt # 7 cashier") [] none DocumentType.generic).2.1
      = (0.95 : ℚ) := by rfl
  refine ⟨by decide, by decide, by decide, by decide, ?_⟩
  rw [hconf]; norm_num

/-- Substring behavior of the receipt detector on texts containing cashier:
cashier is a merchant-context indicator and contains the cash-payment
indicator cash, so the detector fires, and lands on the medium tier exactly
when no transaction-id pattern is present. -/
theorem cashier_receipt_core (text : Text) (field_keys : List Text)
    (h : containsSub (str "cashier") text = true) :
    (is_receipt text field_keys false).1 = true
    ∧ (transaction_patterns.any (fun p => containsSub p text) = false →
       is_receipt text field_keys false
         = (true, { rule := some (str "merchant_payment"), has_merchant_context := true,
                    has_payment_method := true })) := by
  have hm : merchant_indicators.any (fun i => containsSub i text) = true :=
    List.any_eq_true.mpr ⟨str "cashier", by simp [merchant_indicators], h⟩
  have hcash : cash_indicators.any (fun i => containsSub i text) = true := by
    refine List.any_eq_true.mpr ⟨str "cash", by simp [cash_indicators], ?_⟩
    refine containsSub_append_left (str "cash") (str "ier") text ?_
    have e : str "cash" ++ str "ier" = str "cashier" := by decide
    rw [e]; exact h
  constructor
  · simp only [is_receipt]
    simp only [hm, hcash, Bool.or_true, Bool.and_true]
    split
    · simp_all
    · split <;> simp
  · intro htid
    simp [is_receipt, hm, hcash, htid]

/-- C10 amended: every non-promotional text containing cashier fires the
receipt detector; the rule is merchant_payment provided no transaction-id
pattern occurs, and then (absent promotional, insurance and credit hits) the
classifier returns Receipt with confidence 0.85. -/
theorem cashier_substring_receipt :
    (∀ (text : Text) (field_keys : List Text),
      containsSub (str "cashier") text = true →
      (is_receipt text field_keys false).1 = true
      ∧ (transaction_patterns.any (fun p => containsSub p text) = false →
         (is_receipt text field_keys false).2.rule = some (str "merchant_payment")))
    ∧ (∀ (ocr_text : Text) (fields : List FieldModel) (hint : Option DocumentType),
      containsSub (str "cashier") (haystackOf ocr_text fields) = true →
      (is_promotional (haystackOf ocr_text fields)).1 = false →
      (is_insurance_card (haystackOf ocr_text fields)
        (fields.map fun f => lowerStr f.key)).1 = false →
      (is_credit_card (haystackOf ocr_text fields)
        (fields.map fun f => lowerStr f.value)
        (fields.map fun f => lowerStr f.key)).1 = false →
      transaction_patterns.any
        (fun p => containsSub p (haystackOf ocr_text fields)) = false →
      (classify ocr_text fields hint DocumentType.generic).1 = DocumentType.receipt
      ∧ (classify ocr_text fields hint DocumentType.generic).2.1 = 0.85) := by
  constructor
  · intro text field_keys h
    refine ⟨(cashier_receipt_core text field_keys h).1, fun htid => ?_⟩
    rw [(cashier_receipt_core text field_keys h).2 htid]
  · intro ocr_text fields hint h hpromo hins hcr htid
    have hrc := (cashier_receipt_core (haystackOf ocr_text fields)
      (fields.map fun f => lowerStr f.key) h).2 htid
    have hne1 : (str "merchant_payment" == str "strong_transaction") = false := by decide
    have hne2 : (str "merchant_payment" == str "merchant_payment") = true := by decide
    constructor <;> simp [classify, hpromo, hins, hcr, hrc, hne1, hne2]

/-- Witness for C10 amended: the text cashier lane 4 classifies Receipt with
the medium tier at confidence 0.85. -/
theorem cashier_substring_receipt_witness :
    ((is_receipt (str "cashier lane 4") [] false).1 = true
      ∧ (is_receipt (str "cashier lane 4") [] false).2.rule
          = some (str "merchant_payment"))
    ∧ ((classify (str "cashier lane 4") [] none DocumentType.generic).1
          = DocumentType.receipt
      ∧ (classify (str "cashier lane 4") [] none DocumentType.generic).2.1 = 0.85) :=
  ⟨⟨(cashier_substring_receipt.1 (str "cashier lane 4") [] (by decide)).1,
    (cashier_substring_receipt.1 (str "cashier lane 4") [] (by decide)).2 (by decide)⟩,
   cashier_substring_receipt.2 (str "cashier lane 4") [] none
     (by decide) (by decide) (by decide) (by decide) (by decide)⟩

/-- Stage-1 fields carry one of the four generic keys. -/
theorem pattern_field_keys (text : Text) :
    ∀ f ∈ extract_pattern_fields text,
      f.key = str "amount" ∨ f.key = str "date" ∨ f.key = str "email"
      ∨ f.key = str "phone" := by
  intro f hf
  simp only [extract_pattern_fields, List.mem_append, List.mem_map] at hf
  rcases hf with ((⟨v, _, rfl⟩ | ⟨v, _, rfl⟩) | ⟨v, _, rfl⟩) | ⟨v, _, rfl⟩ <;> simp

/-- C7: on Promotional, extraction is the stage-1 fields with every amount
field renamed offer_amount at 0.9 times its confidence and all other fields
unchanged, followed by the promotional additions; and the promo_code fields
of the output are exactly one field at confidence 0.95 holding the capture of
the first promo-code pattern that matches, if any. -/
theorem promotional_extraction_refinement (text : Text) :
    extract_fields text DocumentType.promotional
      = (extract_pattern_fields text).map
          (fun f => if f.key == str "amount" then
              { key := str "offer_amount", value := f.value,
                confidence := f.confidence * 0.9, source := f.source }
            else f)
        ++ extract_promotional_fields text
    ∧ (extract_fields text DocumentType.promotional).filter
        (fun f => f.key == str "promo_code")
      = (match firstSome (fun m => searchCap m text)
            [matchPromo1, matchPromo2, matchPromo3] with
         | some v => [{ key := str "promo_code", value := v, confidence := 0.95,
                        source := str "pattern" }]
         | none => []) := by
  have hpart1 : extract_fields text DocumentType.promotional
      = (extract_pattern_fields text).map
          (fun f => if f.key == str "amount" then
              { key := str "offer_amount", value := f.value,
                confidence := f.confidence * 0.9, source := f.source }
            else f)
        ++ extract_promotional_fields text := by
    simp [extract_fields, refine_fields_by_type]
  have hfil1 : ((extract_pattern_fields text).map
      (fun f => if f.key == str "amount" then
          { key := str "offer_amount", value := f.value,
            confidence := f.confidence * 0.9, source := f.source }
        else f)).filter (fun f => f.key == str "promo_code") = [] := by
    rw [List.filter_eq_nil_iff]
    intro f hf
    obtain ⟨g, hg, rfl⟩ := List.mem_map.mp hf
    have e1 : (str "offer_amount" == str "promo_code") = false := by decide
    have e2 : (str "date" == str "amount") = false := by decide
    have e3 : (str "email" == str "amount") = false := by decide
    have e4 : (str "phone" == str "amount") = false := by decide
    have e5 : (str "date" == str "promo_code") = false := by decide
    have e6 : (str "email" == str "promo_code") = false := by decide
    have e7 : (str "phone" == str "promo_code") = false := by decide
    rcases pattern_field_keys text g hg with h | h | h | h <;>
      simp [h, e1, e2, e3, e4, e5, e6, e7]
  have hfil2 : (extract_promotional_fields text).filter
      (fun f => f.key == str "promo_code")
      = (match firstSome (fun m => searchCap m text)
            [matchPromo1, matchPromo2, matchPromo3] with
         | some v => [{ key := str "promo_code", value := v, confidence := 0.95,
                        source := str "pattern" }]
         | none => []) := by
    have e8 : (str "offer_expiry" == str "promo_code") = false := by decide
    have e9 : (str "promo_code" == str "promo_code") = true := by decide
    simp only [extract_promotional_fields, List.filter_append]
    rcases hp : firstSome (fun m => searchCap m text)
        [matchPromo1, matchPromo2, matchPromo3] with _ | v <;>
      rcases he : firstSome (fun m => searchCap m text)
        [matchExpiry1, matchExpiry2, matchExpiry3] with _ | w <;>
      simp [e8, e9]
  refine ⟨hpart1, ?_⟩
  rw [hpart1, List.filter_append, hfil1, hfil2, List.nil_append]

/-- C8: the hint argument has no influence on the classification result:
any two hints produce the same (type, confidence, signals) tuple. -/
theorem hint_does_not_affect_classification
    (ocr_text : Text) (fields : List FieldModel)
    (hint1 hint2 : Option DocumentType) (default_type : DocumentType) :
    classify ocr_text fields hint1 default_type
      = classify ocr_text fields hint2 default_type := rfl

end FolioMind
